import Mathlib

/-! SixTrack wrapper for Pythia8 (`source/pythia/pythia_wrapper.cpp`)

The wrapper is a set of C-linkage functions acting on one global object `pythia`
of the Pythia8 library.  The library itself is not part of the repository, so
it enters the development as an interface `Pythia8 σ F V`: `σ` is the state of
the generator object, `F` the type of C++ `double` values and `V` the type of
four-vectors (`Vec4`).  Each wrapper function is a state-passing function over
`Host σ`, the pair of the generator object and the text sent to `std::cout`.

A concrete generator `stub` (a scripted test double with a typed settings
registry) serves to evaluate the wrapper on explicit inputs.
-/

namespace PythiaWrapper

/-! ## The interface of the wrapped library -/

/-- The operations of the Pythia8 object that the wrapper calls.  C++ `int` is
`Int` (the wrapper does no integer arithmetic), `double` is the parameter `F`.
Return values that the wrapper discards (`writeFile`, `readFile`) are left out. -/
structure Pythia8 (σ F V : Type) where
  /-- Library call `pythia.init()`: the verdict and the new state. -/
  init : σ → Bool × σ
  /-- Library call `pythia.settings.flag(key, value)`. -/
  settingsFlag : σ → String → Bool → σ
  /-- Library call `pythia.settings.mode(key, value)`. -/
  settingsMode : σ → String → Int → σ
  /-- Library call `pythia.settings.parm(key, value)`. -/
  settingsParm : σ → String → F → σ
  /-- Library call `pythia.settings.writeFile(toFile, writeAll)`; Pythia8 declares
  it as `bool Settings::writeFile(string toFile, bool writeAll = false)`. -/
  settingsWriteFile : σ → (toFile : String) → (writeAll : Bool) → σ
  /-- Library call `pythia.readFile(fileName)`. -/
  readFile : σ → String → σ
  /-- Library call `pythia.parm(key)`, the read accessor of a floating parameter:
  it returns a value and leaves the object as it is. -/
  parm : σ → String → F
  /-- Library call `pythia.next()`: the status and the new state. -/
  next : σ → Bool × σ
  /-- Library call `pythia.info.code()`. -/
  infoCode : σ → Int
  /-- Library call `pythia.info.tHat()`. -/
  infoTHat : σ → F
  /-- Library call `pythia.info.pTHat()`. -/
  infoPTHat : σ → F
  /-- Library call `pythia.event[i].p()`. -/
  eventP : σ → Nat → V
  /-- Library operator `Vec4 - Vec4`. -/
  vsub : V → V → V
  /-- Library call `Vec4::m2Calc()`. -/
  m2Calc : V → F

/-- The state the wrapper acts on: the global `pythia` object and the lines
written to `std::cout`. -/
structure Host (σ : Type) where
  pythia : σ
  cout : List String
deriving DecidableEq

/-- The four output arguments of `pythiaWrapper_getEvent`. -/
structure EventResult (F : Type) where
  status : Bool
  code : Int
  t : F
  xi : F
deriving DecidableEq

/-- Conversion of a C++ `int` argument to a `bool` parameter. -/
def intToBool (n : Int) : Bool := decide (n ≠ 0)

/-! ## The wrapper functions -/

section Wrapper

variable {σ F V : Type}

/-- Source `pythiaWrapper_init` (lines 11-16). -/
def pythiaWrapper_init (P : Pythia8 σ F V) (w : Host σ) : Bool × Host σ :=
  let r := P.init w.pythia
  if !r.1 then (false, { w with pythia := r.2 })
  else
    (true, { pythia := P.settingsWriteFile r.2 "pythia_settings.dat" true,
             cout := w.cout ++ ["PYTHIA> Done"] })

/-- Source `pythiaWrapper_defaults` (lines 18-25). -/
def pythiaWrapper_defaults (P : Pythia8 σ F V) (w : Host σ) : Bool × Host σ :=
  let s1 := P.settingsFlag w.pythia "Init:showChangedSettings" true
  let s2 := P.settingsFlag s1 "Init:showChangedParticleData" false
  let s3 := P.settingsFlag s2 "SigmaTotal:mode" (intToBool 3)
  let s4 := P.settingsFlag s3 "SigmaDiffractive:mode" (intToBool 3)
  (true, { pythia := s4, cout := w.cout ++ ["PYTHIA> Setting defaults"] })

/-- Source `pythiaWrapper_setProcess` (lines 27-34). -/
def pythiaWrapper_setProcess (P : Pythia8 σ F V) (w : Host σ)
    (sEL sSD sDD sCD sND : Bool) : Host σ :=
  let s1 := P.settingsFlag w.pythia "SoftQCD:elastic" sEL
  let s2 := P.settingsFlag s1 "SoftQCD:singleDiffractive" sSD
  let s3 := P.settingsFlag s2 "SoftQCD:doubleDiffractive" sDD
  let s4 := P.settingsFlag s3 "SoftQCD:centralDiffractive" sCD
  let s5 := P.settingsFlag s4 "SoftQCD:nonDiffractive" sND
  { pythia := s5, cout := w.cout ++ ["PYTHIA> Setting processes"] }

/-- Source `pythiaWrapper_setCoulomb` (lines 36-39). -/
def pythiaWrapper_setCoulomb (P : Pythia8 σ F V) (w : Host σ)
    (sCMB : Bool) (tAbsMin : F) : Host σ :=
  let s1 := P.settingsFlag w.pythia "SigmaElastic:Coulomb" sCMB
  let s2 := P.settingsParm s1 "SigmaElastic:tAbsMin" tAbsMin
  { w with pythia := s2 }

/-- Source `pythiaWrapper_setSeed` (lines 41-44). -/
def pythiaWrapper_setSeed (P : Pythia8 σ F V) (w : Host σ) (rndSeed : Int) : Host σ :=
  { pythia := P.settingsMode w.pythia "Random:seed" rndSeed,
    cout := w.cout ++ ["PYTHIA> Setting random seed"] }

/-- Source `pythiaWrapper_setBeam` (lines 46-53). -/
def pythiaWrapper_setBeam (P : Pythia8 σ F V) (w : Host σ)
    (frameType idA idB : Int) (eA eB : F) : Host σ :=
  let s1 := P.settingsMode w.pythia "Beams:frameType" frameType
  let s2 := P.settingsMode s1 "Beams:idA" idA
  let s3 := P.settingsMode s2 "Beams:idB" idB
  let s4 := P.settingsParm s3 "Beams:eA" eA
  let s5 := P.settingsParm s4 "Beams:eB" eB
  { pythia := s5, cout := w.cout ++ ["PYTHIA> Setting beam parameters"] }

/-- Source `pythiaWrapper_readFile` (lines 55-58). -/
def pythiaWrapper_readFile (P : Pythia8 σ F V) (w : Host σ) (fileName : String) : Host σ :=
  { pythia := P.readFile w.pythia fileName,
    cout := w.cout ++ ["PYTHIA> Loading settings from external file"] }

/-- Source `pythiaWrapper_getCrossSection` (lines 60-63): the two output
arguments `(sigTot, sigEl)` and the state after the call. -/
def pythiaWrapper_getCrossSection (P : Pythia8 σ F V) (w : Host σ) : (F × F) × Host σ :=
  let sigTot := P.parm w.pythia "SigmaTotal:sigmaTot"
  let sigEl := P.parm w.pythia "SigmaTotal:sigmaEl"
  ((sigTot, sigEl), w)

/-- Source `pythiaWrapper_getEvent` (lines 65-77): the four output arguments
and the state after the call. -/
def pythiaWrapper_getEvent (P : Pythia8 σ F V) (w : Host σ) : EventResult F × Host σ :=
  let r := P.next w.pythia
  let status := r.1
  let s := r.2
  let code := P.infoCode s
  let t := if code = 106 then P.m2Calc (P.vsub (P.eventP s 3) (P.eventP s 1))
           else P.infoTHat s
  let xi := P.infoPTHat s
  ({ status := status, code := code, t := t, xi := xi }, { w with pythia := s })

/-- Driver: `n` successive calls of `pythiaWrapper_getEvent`, collecting the results. -/
def sampleEvents (P : Pythia8 σ F V) : Nat → Host σ → List (EventResult F) × Host σ
  | 0, w => ([], w)
  | n + 1, w =>
    let r := pythiaWrapper_getEvent P w
    let rest := sampleEvents P n r.2
    (r.1 :: rest.1, rest.2)

/-- Driver: `n` successive calls of `pythiaWrapper_getCrossSection`. -/
def crossSections (P : Pythia8 σ F V) : Nat → Host σ → List (F × F) × Host σ
  | 0, w => ([], w)
  | n + 1, w =>
    let r := pythiaWrapper_getCrossSection P w
    let rest := crossSections P n r.2
    (r.1 :: rest.1, rest.2)

/-- The generator state after `n` calls of the library's own `next`. -/
def nextIter (P : Pythia8 σ F V) : Nat → σ → σ
  | 0, s => s
  | n + 1, s => nextIter P n (P.next s).2

end Wrapper

/-! ## A concrete generator: the scripted stub -/

/-- Four-vector of the stub, components in the order of Pythia8's `Vec4(x, y, z, t)`. -/
structure Vec4 where
  xx : Int
  yy : Int
  zz : Int
  tt : Int
deriving DecidableEq

/-- Componentwise difference, Pythia8's `operator-` on `Vec4`. -/
def Vec4.sub (a b : Vec4) : Vec4 :=
  { xx := a.xx - b.xx, yy := a.yy - b.yy, zz := a.zz - b.zz, tt := a.tt - b.tt }

/-- Squared invariant mass, Pythia8's `Vec4::m2Calc`. -/
def Vec4.m2Calc (a : Vec4) : Int :=
  a.tt * a.tt - a.xx * a.xx - a.yy * a.yy - a.zz * a.zz

/-- The three value kinds of the settings registry. -/
inductive Kind where
  | flag
  | mode
  | parm
deriving DecidableEq

/-- A value of one of the three kinds (floating values of the stub are integers). -/
inductive Value where
  | flag (b : Bool)
  | mode (n : Int)
  | parm (x : Int)
deriving DecidableEq

/-- The kind of a value. -/
def Value.kind : Value → Kind
  | .flag _ => .flag
  | .mode _ => .mode
  | .parm _ => .parm

/-- A key with a value: one accessor call of the log, or one line of a settings file. -/
structure Setting where
  key : String
  value : Value
deriving DecidableEq

/-- One entry of a typed store of the registry: current and default value. -/
structure Entry (α : Type) where
  key : String
  valNow : α
  valDefault : α
deriving DecidableEq

/-- Write accessor of one store: the current value of the entry named `key` is
replaced; a key the store does not hold leaves the store as it is (as Pythia8's
`Settings::flag`, `mode` and `parm` do for a key of another kind). -/
def setNow {α : Type} (key : String) (v : α) (es : List (Entry α)) : List (Entry α) :=
  es.map fun e => if e.key = key then { e with valNow := v } else e

/-- Read accessor of one store. -/
def getNow {α : Type} (key : String) (es : List (Entry α)) : Option α :=
  (es.find? fun e => e.key = key).map fun e => e.valNow

/-- The lines that `writeFile` emits for one store, after the documentation of
Pythia8 for `Settings::writeFile(toFile, writeAll)`: normally only the settings that
have been changed are written, with `writeAll` on all settings are output. -/
def storeLines {α : Type} [DecidableEq α] (mk : α → Value) (writeAll : Bool)
    (es : List (Entry α)) : List Setting :=
  (es.filter fun e => writeAll || decide (e.valNow ≠ e.valDefault)).map
    fun e => { key := e.key, value := mk e.valNow }

/-- One scripted event of the stub. -/
structure StubEvent where
  status : Bool
  code : Int
  tHat : Int
  pTHat : Int
  event : List Vec4
deriving DecidableEq

/-- State of the stub generator. -/
structure StubState where
  flags : List (Entry Bool)
  modes : List (Entry Int)
  parms : List (Entry Int)
  /-- Every write-accessor call received, oldest first. -/
  log : List Setting
  /-- The verdict that `init` gives. -/
  initVerdict : Bool
  /-- Whether the last `init` succeeded. -/
  ready : Bool
  initCalls : Nat
  /-- The files written by `writeFile`, oldest first. -/
  files : List (String × List Setting)
  /-- The events still to come. -/
  script : List StubEvent
  /-- The data of the current event. -/
  info : StubEvent
  nextCalls : Nat
deriving DecidableEq

/-- Stub `init`. -/
def StubState.init (s : StubState) : Bool × StubState :=
  (s.initVerdict, { s with initCalls := s.initCalls + 1, ready := s.initVerdict })

/-- Stub `settings.flag`. -/
def StubState.settingsFlag (s : StubState) (key : String) (v : Bool) : StubState :=
  { s with flags := setNow key v s.flags, log := s.log ++ [⟨key, .flag v⟩] }

/-- Stub `settings.mode`. -/
def StubState.settingsMode (s : StubState) (key : String) (v : Int) : StubState :=
  { s with modes := setNow key v s.modes, log := s.log ++ [⟨key, .mode v⟩] }

/-- Stub `settings.parm`. -/
def StubState.settingsParm (s : StubState) (key : String) (v : Int) : StubState :=
  { s with parms := setNow key v s.parms, log := s.log ++ [⟨key, .parm v⟩] }

/-- The content of a settings file of the stub. -/
def StubState.lines (s : StubState) (writeAll : Bool) : List Setting :=
  storeLines Value.flag writeAll s.flags ++ storeLines Value.mode writeAll s.modes
    ++ storeLines Value.parm writeAll s.parms

/-- Stub `settings.writeFile(toFile, writeAll)`. -/
def StubState.settingsWriteFile (s : StubState) (toFile : String) (writeAll : Bool) :
    StubState :=
  { s with files := s.files ++ [(toFile, s.lines writeAll)] }

/-- Stub `next`: refuses (status `false`) while not ready, as Pythia8 does; otherwise
the next scripted event becomes the current one. -/
def StubState.next (s : StubState) : Bool × StubState :=
  if !s.ready then (false, { s with nextCalls := s.nextCalls + 1 })
  else
    match s.script with
    | [] => (false, { s with nextCalls := s.nextCalls + 1 })
    | e :: es => (e.status, { s with script := es, info := e, nextCalls := s.nextCalls + 1 })

/-- The stub as an instance of the library interface. -/
def stub : Pythia8 StubState Int Vec4 where
  init := StubState.init
  settingsFlag := StubState.settingsFlag
  settingsMode := StubState.settingsMode
  settingsParm := StubState.settingsParm
  settingsWriteFile := StubState.settingsWriteFile
  readFile := fun s _ => s
  parm := fun s key => (getNow key s.parms).getD 0
  next := StubState.next
  infoCode := fun s => s.info.code
  infoTHat := fun s => s.info.tHat
  infoPTHat := fun s => s.info.pTHat
  eventP := fun s i => s.info.event.getD i ⟨0, 0, 0, 0⟩
  vsub := Vec4.sub
  m2Calc := Vec4.m2Calc

/-- An elastic-like event with process code 106. -/
def ev106 : StubEvent :=
  { status := true, code := 106, tHat := 0, pTHat := 9,
    event := [⟨0, 0, 0, 0⟩, ⟨0, 0, 7000, 7000⟩, ⟨0, 0, -7000, 7000⟩, ⟨3, 4, 6990, 6995⟩] }

/-- An event with process code 101. -/
def ev101 : StubEvent :=
  { status := true, code := 101, tHat := -5, pTHat := 7,
    event := [⟨0, 0, 0, 0⟩, ⟨0, 0, 7000, 7000⟩, ⟨0, 0, -7000, 7000⟩, ⟨1, 2, 6000, 6001⟩] }

/-- A stub state before any call: every setting at its default, `init` not yet
called, two events scripted. -/
def stub0 : StubState :=
  { flags := [⟨"Init:showChangedSettings", true, true⟩,
              ⟨"Init:showChangedParticleData", true, true⟩,
              ⟨"SoftQCD:elastic", false, false⟩,
              ⟨"SoftQCD:singleDiffractive", false, false⟩,
              ⟨"SoftQCD:doubleDiffractive", false, false⟩,
              ⟨"SoftQCD:centralDiffractive", false, false⟩,
              ⟨"SoftQCD:nonDiffractive", false, false⟩,
              ⟨"SigmaElastic:Coulomb", false, false⟩],
    modes := [⟨"SigmaTotal:mode", 1, 1⟩,
              ⟨"SigmaDiffractive:mode", 1, 1⟩,
              ⟨"Random:seed", -1, -1⟩,
              ⟨"Beams:frameType", 1, 1⟩,
              ⟨"Beams:idA", 2212, 2212⟩,
              ⟨"Beams:idB", 2212, 2212⟩],
    parms := [⟨"SigmaElastic:tAbsMin", 0, 0⟩,
              ⟨"Beams:eA", 7000, 7000⟩,
              ⟨"Beams:eB", 7000, 7000⟩,
              ⟨"SigmaTotal:sigmaTot", 80, 80⟩,
              ⟨"SigmaTotal:sigmaEl", 20, 20⟩],
    log := [],
    initVerdict := true,
    ready := false,
    initCalls := 0,
    files := [],
    script := [ev106, ev101],
    info := { status := false, code := 0, tHat := 0, pTHat := 0, event := [] },
    nextCalls := 0 }

/-- The host state around `stub0`. -/
def host0 : Host StubState := { pythia := stub0, cout := [] }

/-- The host state after one successful `pythiaWrapper_init` on `host0`. -/
def host1 : Host StubState := (pythiaWrapper_init stub host0).2

/-! ## The value kind each key expects -/

/-- The value kind a setting key expects, as the specification lists them:
flags for `Init:showChangedSettings`, `Init:showChangedParticleData`, the
`SoftQCD:` switches and `SigmaElastic:Coulomb`; integer modes for
`SigmaTotal:mode`, `SigmaDiffractive:mode`, `Random:seed`, `Beams:frameType`,
`Beams:idA`, `Beams:idB`; floating parameters for `SigmaElastic:tAbsMin`,
`Beams:eA`, `Beams:eB`. -/
def expectedKind (key : String) : Option Kind :=
  if key ∈ ["Init:showChangedSettings", "Init:showChangedParticleData",
            "SoftQCD:elastic", "SoftQCD:singleDiffractive", "SoftQCD:doubleDiffractive",
            "SoftQCD:centralDiffractive", "SoftQCD:nonDiffractive",
            "SigmaElastic:Coulomb"] then some .flag
  else if key ∈ ["SigmaTotal:mode", "SigmaDiffractive:mode", "Random:seed",
                 "Beams:frameType", "Beams:idA", "Beams:idB"] then some .mode
  else if key ∈ ["SigmaElastic:tAbsMin", "Beams:eA", "Beams:eB"] then some .parm
  else none

/-- A logged accessor call goes through the accessor of the kind its key expects. -/
def wellKinded (c : Setting) : Bool :=
  decide (expectedKind c.key = some c.value.kind)

/-- The host state after `pythiaWrapper_setProcess` (elastic only) on `host0`. -/
def hostEl : Host StubState := pythiaWrapper_setProcess stub host0 true false false false false

/-- A stub host state whose `init` fails. -/
def hostBad : Host StubState := { pythia := { stub0 with initVerdict := false }, cout := [] }

/-- A host state with the same generator object as `host1` and another output history. -/
def host1b : Host StubState := { host1 with cout := [] }

/-! ## Basic facts -/

section Facts

variable {σ F V : Type}

theorem getEvent_state (P : Pythia8 σ F V) (w : Host σ) :
    (pythiaWrapper_getEvent P w).2 = { w with pythia := (P.next w.pythia).2 } := rfl

theorem getEvent_result_congr (P : Pythia8 σ F V) (w1 w2 : Host σ)
    (h : w1.pythia = w2.pythia) :
    (pythiaWrapper_getEvent P w1).1 = (pythiaWrapper_getEvent P w2).1 := by
  simp only [pythiaWrapper_getEvent, h]

theorem sampleEvents_result_congr (P : Pythia8 σ F V) (n : Nat) :
    ∀ w1 w2 : Host σ, w1.pythia = w2.pythia →
      (sampleEvents P n w1).1 = (sampleEvents P n w2).1 := by
  induction n with
  | zero => intro w1 w2 _; rfl
  | succ n ih =>
    intro w1 w2 h
    have h1 := getEvent_result_congr P w1 w2 h
    have h2 : (pythiaWrapper_getEvent P w1).2.pythia = (pythiaWrapper_getEvent P w2).2.pythia := by
      simp only [getEvent_state, h]
    simp only [sampleEvents, h1, ih _ _ h2]

theorem sampleEvents_state (P : Pythia8 σ F V) (n : Nat) :
    ∀ w : Host σ, (sampleEvents P n w).2 = { w with pythia := nextIter P n w.pythia } := by
  induction n with
  | zero => intro w; rfl
  | succ n ih =>
    intro w
    simp only [sampleEvents, ih, getEvent_state, nextIter]

theorem sampleEvents_length (P : Pythia8 σ F V) (n : Nat) :
    ∀ w : Host σ, (sampleEvents P n w).1.length = n := by
  induction n with
  | zero => intro w; rfl
  | succ n ih =>
    intro w
    simp only [sampleEvents, List.length_cons, ih]

theorem crossSections_eq (P : Pythia8 σ F V) (n : Nat) (w : Host σ) :
    crossSections P n w = (List.replicate n (pythiaWrapper_getCrossSection P w).1, w) := by
  induction n with
  | zero => rfl
  | succ n ih =>
    simp only [crossSections, List.replicate_succ]
    have h : (pythiaWrapper_getCrossSection P w).2 = w := rfl
    rw [h, ih]

end Facts

theorem mem_storeLines_writeAll {α : Type} [DecidableEq α] (mk : α → Value)
    (es : List (Entry α)) (e : Entry α) (h : e ∈ es) :
    ({ key := e.key, value := mk e.valNow } : Setting) ∈ storeLines mk true es := by
  unfold storeLines
  refine List.mem_map.mpr ⟨e, ?_, rfl⟩
  simp [List.mem_filter, h]

/-- The setters other than `pythiaWrapper_defaults` log only calls through the
accessor of the kind the key expects, whatever the arguments. -/
theorem setters_wellKinded (w : Host StubState) (a b c d e sCMB : Bool)
    (tAbsMin rndSeed frameType idA idB eA eB : Int) :
    (pythiaWrapper_setProcess stub w a b c d e).pythia.log
        = w.pythia.log ++ [⟨"SoftQCD:elastic", .flag a⟩, ⟨"SoftQCD:singleDiffractive", .flag b⟩,
            ⟨"SoftQCD:doubleDiffractive", .flag c⟩, ⟨"SoftQCD:centralDiffractive", .flag d⟩,
            ⟨"SoftQCD:nonDiffractive", .flag e⟩]
      ∧ (pythiaWrapper_setCoulomb stub w sCMB tAbsMin).pythia.log
        = w.pythia.log ++ [⟨"SigmaElastic:Coulomb", .flag sCMB⟩,
            ⟨"SigmaElastic:tAbsMin", .parm tAbsMin⟩]
      ∧ (pythiaWrapper_setSeed stub w rndSeed).pythia.log
        = w.pythia.log ++ [⟨"Random:seed", .mode rndSeed⟩]
      ∧ (pythiaWrapper_setBeam stub w frameType idA idB eA eB).pythia.log
        = w.pythia.log ++ [⟨"Beams:frameType", .mode frameType⟩, ⟨"Beams:idA", .mode idA⟩,
            ⟨"Beams:idB", .mode idB⟩, ⟨"Beams:eA", .parm eA⟩, ⟨"Beams:eB", .parm eB⟩]
      ∧ wellKinded ⟨"SoftQCD:elastic", .flag a⟩ = true
      ∧ wellKinded ⟨"SoftQCD:singleDiffractive", .flag b⟩ = true
      ∧ wellKinded ⟨"SoftQCD:doubleDiffractive", .flag c⟩ = true
      ∧ wellKinded ⟨"SoftQCD:centralDiffractive", .flag d⟩ = true
      ∧ wellKinded ⟨"SoftQCD:nonDiffractive", .flag e⟩ = true
      ∧ wellKinded ⟨"SigmaElastic:Coulomb", .flag sCMB⟩ = true
      ∧ wellKinded ⟨"SigmaElastic:tAbsMin", .parm tAbsMin⟩ = true
      ∧ wellKinded ⟨"Random:seed", .mode rndSeed⟩ = true
      ∧ wellKinded ⟨"Beams:frameType", .mode frameType⟩ = true
      ∧ wellKinded ⟨"Beams:idA", .mode idA⟩ = true
      ∧ wellKinded ⟨"Beams:idB", .mode idB⟩ = true
      ∧ wellKinded ⟨"Beams:eA", .parm eA⟩ = true
      ∧ wellKinded ⟨"Beams:eB", .parm eB⟩ = true := by
  refine ⟨?_, ?_, ?_, ?_, ?_, ?_, ?_, ?_, ?_, ?_, ?_, ?_, ?_, ?_, ?_, ?_, ?_⟩
  · simp [pythiaWrapper_setProcess, stub, StubState.settingsFlag]
  · simp [pythiaWrapper_setCoulomb, stub, StubState.settingsFlag, StubState.settingsParm]
  · simp [pythiaWrapper_setSeed, stub, StubState.settingsMode]
  · simp [pythiaWrapper_setBeam, stub, StubState.settingsMode, StubState.settingsParm]
  all_goals rfl

/-! ## The event sampler -/

section Sampler

variable {σ F V : Type}

/-- C1: for every generator and every state, the `t` that `pythiaWrapper_getEvent`
returns belongs to the event produced by this call's `next`: the returned code is
the generator's process code; when it is 106, `t` is `m2Calc` of the four-momentum
of event-record entry 3 minus that of entry 1; for every other code, `t` is the
generator's `tHat` value itself. -/
theorem getEvent_t_by_code (P : Pythia8 σ F V) (w : Host σ) :
    (pythiaWrapper_getEvent P w).1.code = P.infoCode (P.next w.pythia).2
      ∧ ((pythiaWrapper_getEvent P w).1.code = 106 →
          (pythiaWrapper_getEvent P w).1.t
            = P.m2Calc (P.vsub (P.eventP (P.next w.pythia).2 3) (P.eventP (P.next w.pythia).2 1)))
      ∧ ((pythiaWrapper_getEvent P w).1.code ≠ 106 →
          (pythiaWrapper_getEvent P w).1.t = P.infoTHat (P.next w.pythia).2) := by
  refine ⟨rfl, ?_, ?_⟩
  · intro h
    have h1 : P.infoCode (P.next w.pythia).2 = 106 := h
    simp only [pythiaWrapper_getEvent, h1, if_true]
  · intro h
    have h1 : ¬ P.infoCode (P.next w.pythia).2 = 106 := h
    simp only [pythiaWrapper_getEvent, h1, if_false]

/-- Both branches of C1 on the stub: the first scripted event has code 106 and
`t = 25 - 9 - 16 - 100`, the second has code 101 and `t = tHat = -5`. -/
theorem getEvent_t_by_code_witness :
    (pythiaWrapper_getEvent stub host1).1.t = -100
      ∧ (pythiaWrapper_getEvent stub (pythiaWrapper_getEvent stub host1).2).1.t = -5 :=
  ⟨((getEvent_t_by_code stub host1).2.1 (by decide)).trans (by decide),
   ((getEvent_t_by_code stub (pythiaWrapper_getEvent stub host1).2).2.2 (by decide)).trans
     (by decide)⟩

/-- C4 as amended: `pythiaWrapper_getEvent` has no check of the initialisation: on
every generator state it requests the next event from the generator, returns the
status of that request and the process code read after it, and leaves the generator
in the state that request produced. -/
theorem getEvent_always_requests (P : Pythia8 σ F V) (w : Host σ) :
    (pythiaWrapper_getEvent P w).1.status = (P.next w.pythia).1
      ∧ (pythiaWrapper_getEvent P w).1.code = P.infoCode (P.next w.pythia).2
      ∧ (pythiaWrapper_getEvent P w).2.pythia = (P.next w.pythia).2
      ∧ (pythiaWrapper_getEvent P w).2.cout = w.cout :=
  ⟨rfl, rfl, rfl, rfl⟩

/-- C4 fails: on the stub state `host0`, where `init` has never been called, the
call reaches the generator (`nextCalls` goes from 0 to 1) and returns the ordinary
result `(false, 0, 0, 0)`. -/
theorem getEvent_before_init_counterexample :
    host0.pythia.ready = false ∧ host0.pythia.initCalls = 0 ∧ host0.pythia.nextCalls = 0
      ∧ (pythiaWrapper_getEvent stub host0).2.pythia.nextCalls = 1
      ∧ (pythiaWrapper_getEvent stub host0).1 = ⟨false, 0, 0, 0⟩ := by
  decide

/-- C5: two runs of `N` successive `pythiaWrapper_getEvent` calls that start from
equal generator states return identical sequences of `(status, code, t, xi)` and end
in equal generator states; each run returns `N` results, leaves the generator in the
state reached by `N` calls of its own `next`, and changes nothing else. -/
theorem sampleEvents_deterministic (P : Pythia8 σ F V) (N : Nat) (w1 w2 : Host σ)
    (h : w1.pythia = w2.pythia) :
    (sampleEvents P N w1).1 = (sampleEvents P N w2).1
      ∧ (sampleEvents P N w1).2.pythia = (sampleEvents P N w2).2.pythia
      ∧ (sampleEvents P N w1).1.length = N
      ∧ (sampleEvents P N w1).2.pythia = nextIter P N w1.pythia
      ∧ (sampleEvents P N w1).2.cout = w1.cout := by
  refine ⟨sampleEvents_result_congr P N w1 w2 h, ?_, sampleEvents_length P N w1, ?_, ?_⟩
  · rw [sampleEvents_state, sampleEvents_state, h]
  · rw [sampleEvents_state]
  · rw [sampleEvents_state]

/-- C5 on the stub: two host states with the same generator object and different
output histories give the same two results. -/
theorem sampleEvents_deterministic_witness :
    host1.pythia = host1b.pythia
      ∧ (sampleEvents stub 2 host1).1 = [⟨true, 106, -100, 9⟩, ⟨true, 101, -5, 7⟩]
      ∧ (sampleEvents stub 2 host1).1 = (sampleEvents stub 2 host1b).1 :=
  ⟨rfl, by decide, (sampleEvents_deterministic stub 2 host1 host1b rfl).1⟩

/-- C8: for every generator and every state, whatever the status and the process
code of the event, the `xi` that `pythiaWrapper_getEvent` returns is the generator's
`pTHat` value of the event produced by this call. -/
theorem getEvent_xi_is_pTHat (P : Pythia8 σ F V) (w : Host σ) :
    (pythiaWrapper_getEvent P w).1.xi = P.infoPTHat (P.next w.pythia).2 :=
  rfl

end Sampler

/-! ## The cross-section query -/

/-- C6: `pythiaWrapper_getCrossSection` returns the parameters `SigmaTotal:sigmaTot`
and `SigmaTotal:sigmaEl`, leaves the whole state (generator and settings registry)
as it was, and `n` consecutive calls return `n` times that same pair. -/
theorem getCrossSection_pure_read {σ F V : Type} (P : Pythia8 σ F V) (w : Host σ) (n : Nat) :
    (pythiaWrapper_getCrossSection P w).1
        = (P.parm w.pythia "SigmaTotal:sigmaTot", P.parm w.pythia "SigmaTotal:sigmaEl")
      ∧ (pythiaWrapper_getCrossSection P w).2 = w
      ∧ crossSections P n w
        = (List.replicate n (P.parm w.pythia "SigmaTotal:sigmaTot",
            P.parm w.pythia "SigmaTotal:sigmaEl"), w) :=
  ⟨rfl, rfl, crossSections_eq P n w⟩

/-! ## Bring-up of the generator -/

section Init

variable {σ F V : Type}

/-- C10: `pythiaWrapper_init` returns `false` exactly when the generator's `init`
returns `false`, and then the state is the one `init` left, with no `writeFile` call
and no output; when `init` returns `true` the wrapper returns `true` and the state is
the result of one `writeFile("pythia_settings.dat", true)` applied to the state that
`init` left. -/
theorem init_reports_generator_verdict (P : Pythia8 σ F V) (w : Host σ) :
    ((pythiaWrapper_init P w).1 = false ↔ (P.init w.pythia).1 = false)
      ∧ ((P.init w.pythia).1 = false →
          (pythiaWrapper_init P w).2 = { w with pythia := (P.init w.pythia).2 })
      ∧ ((P.init w.pythia).1 = true →
          (pythiaWrapper_init P w).1 = true
            ∧ (pythiaWrapper_init P w).2.pythia
              = P.settingsWriteFile (P.init w.pythia).2 "pythia_settings.dat" true) := by
  cases h : (P.init w.pythia).1 <;> simp [pythiaWrapper_init, h]

/-- C10 on the stub: a failing `init` leaves no file, a succeeding one leaves exactly
one file, written after `init` (the generator is ready and `init` was counted). -/
theorem init_reports_generator_verdict_witness :
    ((pythiaWrapper_init stub hostBad).1 = false
        ∧ (pythiaWrapper_init stub hostBad).2.pythia.files = [])
      ∧ ((pythiaWrapper_init stub host0).1 = true
        ∧ (pythiaWrapper_init stub host0).2.pythia.files.map Prod.fst = ["pythia_settings.dat"]
        ∧ (pythiaWrapper_init stub host0).2.pythia.initCalls = 1) :=
  ⟨⟨(init_reports_generator_verdict stub hostBad).1.mpr (by decide),
    (congrArg (fun u => u.pythia.files)
      ((init_reports_generator_verdict stub hostBad).2.1 (by decide))).trans (by decide)⟩,
   ⟨((init_reports_generator_verdict stub host0).2.2 (by decide)).1,
    (congrArg (fun u => u.files.map Prod.fst)
      ((init_reports_generator_verdict stub host0).2.2 (by decide)).2).trans (by decide),
    by decide⟩⟩

/-- C2 as amended: a second `pythiaWrapper_init` in a row calls the generator's
`init` again: it returns the verdict of `init` on the state the first call left, and
leaves the generator in the state that `init` produced, followed by the settings
write when the verdict is `true`. -/
theorem init_twice_reenters (P : Pythia8 σ F V) (w : Host σ) :
    (pythiaWrapper_init P (pythiaWrapper_init P w).2).1
        = (P.init (pythiaWrapper_init P w).2.pythia).1
      ∧ (pythiaWrapper_init P (pythiaWrapper_init P w).2).2.pythia
        = if (P.init (pythiaWrapper_init P w).2.pythia).1 then
            P.settingsWriteFile (P.init (pythiaWrapper_init P w).2.pythia).2
              "pythia_settings.dat" true
          else (P.init (pythiaWrapper_init P w).2.pythia).2 := by
  generalize (pythiaWrapper_init P w).2 = w1
  cases h : (P.init w1.pythia).1 <;> simp [pythiaWrapper_init, h]

/-- C2 fails: on the stub, the second call in a row returns `true`, calls the
generator's `init` a second time, writes the settings file a second time and so
leaves a generator state different from the one before it. -/
theorem init_twice_counterexample :
    (pythiaWrapper_init stub host0).1 = true
      ∧ (pythiaWrapper_init stub host1).1 = true
      ∧ host1.pythia.initCalls = 1
      ∧ (pythiaWrapper_init stub host1).2.pythia.initCalls = 2
      ∧ (pythiaWrapper_init stub host1).2.pythia.files.length = 2
      ∧ (pythiaWrapper_init stub host1).2.pythia ≠ host1.pythia := by
  decide

end Init

/-- C7 as amended: the settings snapshot of a successful `pythiaWrapper_init` is
requested in write-all mode (`writeAll = true`): on the registry model, the file
`pythia_settings.dat` is appended with every entry of the three stores at its current
value, entries equal to their default included. -/
theorem init_snapshot_writes_all (w : Host StubState) (h : w.pythia.initVerdict = true) :
    (pythiaWrapper_init stub w).1 = true
      ∧ (pythiaWrapper_init stub w).2.pythia.files
        = w.pythia.files ++ [("pythia_settings.dat", w.pythia.lines true)]
      ∧ (∀ e ∈ w.pythia.flags, (⟨e.key, .flag e.valNow⟩ : Setting) ∈ w.pythia.lines true)
      ∧ (∀ e ∈ w.pythia.modes, (⟨e.key, .mode e.valNow⟩ : Setting) ∈ w.pythia.lines true)
      ∧ (∀ e ∈ w.pythia.parms, (⟨e.key, .parm e.valNow⟩ : Setting) ∈ w.pythia.lines true) := by
  refine ⟨?_, ?_, ?_, ?_, ?_⟩
  · simp [pythiaWrapper_init, stub, StubState.init, h]
  · simp [pythiaWrapper_init, stub, StubState.init, h, StubState.settingsWriteFile,
      StubState.lines]
  · intro e he
    simp only [StubState.lines, List.mem_append]
    exact Or.inl (Or.inl (mem_storeLines_writeAll Value.flag _ e he))
  · intro e he
    simp only [StubState.lines, List.mem_append]
    exact Or.inl (Or.inr (mem_storeLines_writeAll Value.mode _ e he))
  · intro e he
    simp only [StubState.lines, List.mem_append]
    exact Or.inr (mem_storeLines_writeAll Value.parm _ e he)

/-- C7 as amended, on the stub after `pythiaWrapper_setProcess` (elastic only): the
snapshot holds the unchanged entry `Beams:eA`. -/
theorem init_snapshot_writes_all_witness :
    hostEl.pythia.initVerdict = true
      ∧ (pythiaWrapper_init stub hostEl).2.pythia.files
        = hostEl.pythia.files ++ [("pythia_settings.dat", hostEl.pythia.lines true)]
      ∧ (⟨"Beams:eA", .parm 7000⟩ : Setting) ∈ hostEl.pythia.lines true :=
  ⟨by decide, (init_snapshot_writes_all hostEl (by decide)).2.1,
   (init_snapshot_writes_all hostEl (by decide)).2.2.2.2 ⟨"Beams:eA", 7000, 7000⟩ (by decide)⟩

/-- C7 fails: after `pythiaWrapper_setProcess` (elastic only) the only setting that
differs from its default is `SoftQCD:elastic`, yet the snapshot written by the
successful `pythiaWrapper_init` has 19 lines, among them `SoftQCD:singleDiffractive`
and `Beams:eA` at their default values. -/
theorem init_snapshot_counterexample :
    (pythiaWrapper_init stub hostEl).1 = true
      ∧ hostEl.pythia.lines false = [⟨"SoftQCD:elastic", .flag true⟩]
      ∧ (pythiaWrapper_init stub hostEl).2.pythia.files
        = [("pythia_settings.dat", hostEl.pythia.lines true)]
      ∧ (hostEl.pythia.lines true).length = 19
      ∧ (⟨"SoftQCD:singleDiffractive", .flag false⟩ : Setting) ∈ hostEl.pythia.lines true
      ∧ getNow "SoftQCD:singleDiffractive" hostEl.pythia.flags = some false
      ∧ (⟨"Beams:eA", .parm 7000⟩ : Setting) ∈ hostEl.pythia.lines true
      ∧ hostEl.pythia.lines true ≠ hostEl.pythia.lines false := by
  decide

/-! ## The configuration setters -/

/-- C3 as amended: `pythiaWrapper_setBeam` forwards its five arguments unchecked,
whatever their values: `Beams:frameType`, `Beams:idA`, `Beams:idB` through the
integer-mode accessor, then `Beams:eA`, `Beams:eB` through the floating-parameter
accessor. -/
theorem setBeam_forwards_unchecked {σ F V : Type} (P : Pythia8 σ F V) (w : Host σ)
    (frameType idA idB : Int) (eA eB : F) :
    (pythiaWrapper_setBeam P w frameType idA idB eA eB).pythia
      = P.settingsParm (P.settingsParm (P.settingsMode (P.settingsMode
          (P.settingsMode w.pythia "Beams:frameType" frameType) "Beams:idA" idA)
          "Beams:idB" idB) "Beams:eA" eA) "Beams:eB" eB :=
  rfl

/-- C3 fails: `pythiaWrapper_setBeam` with `eA = -10` reaches the generator: all
five keys are written through the accessors, `Beams:eA` holds `-10` afterwards and
the registry differs from the one before the call. -/
theorem setBeam_counterexample :
    (pythiaWrapper_setBeam stub host0 1 2212 2212 (-10) 7000).pythia.log
        = [⟨"Beams:frameType", .mode 1⟩, ⟨"Beams:idA", .mode 2212⟩, ⟨"Beams:idB", .mode 2212⟩,
           ⟨"Beams:eA", .parm (-10)⟩, ⟨"Beams:eB", .parm 7000⟩]
      ∧ getNow "Beams:eA" host0.pythia.parms = some 7000
      ∧ getNow "Beams:eA" (pythiaWrapper_setBeam stub host0 1 2212 2212 (-10) 7000).pythia.parms
        = some (-10)
      ∧ (pythiaWrapper_setBeam stub host0 1 2212 2212 (-10) 7000).pythia.parms
        ≠ host0.pythia.parms := by
  decide

/-- C9, the code at `pythiaWrapper_defaults`: the keys `SigmaTotal:mode` and
`SigmaDiffractive:mode` are written through the flag accessor with the value `true`
(the `int` 3 converted to `bool`), not through the integer-mode accessor; on the
stub neither integer mode holds 3 afterwards. -/
theorem defaults_writes_modes_as_flags :
    (pythiaWrapper_defaults stub host0).2.pythia.log
        = [⟨"Init:showChangedSettings", .flag true⟩, ⟨"Init:showChangedParticleData", .flag false⟩,
           ⟨"SigmaTotal:mode", .flag true⟩, ⟨"SigmaDiffractive:mode", .flag true⟩]
      ∧ (pythiaWrapper_defaults stub host0).2.pythia.log.map wellKinded
        = [true, true, false, false]
      ∧ expectedKind "SigmaTotal:mode" = some Kind.mode
      ∧ expectedKind "SigmaDiffractive:mode" = some Kind.mode
      ∧ getNow "SigmaTotal:mode" (pythiaWrapper_defaults stub host0).2.pythia.modes = some 1
      ∧ getNow "SigmaDiffractive:mode" (pythiaWrapper_defaults stub host0).2.pythia.modes
        = some 1 := by
  decide

end PythiaWrapper
